import Mathlib

/-!
Shallow embedding of the ABCI application layer of ya-enot/ethermint
(src/app/app.go): the CheckTx admission path (CheckTx / validateTx),
DeliverTx, Info and Commit, together with the pieces of external state
they read (the mempool StateDB `checkTxState`, the backend block gas
limit, the go-ethereum intrinsic-gas computation).

Conventions of the embedding:
* addresses are `Nat`; byte strings are `List Nat`;
* `big.Int` quantities (balances, values, costs) are `Int`;
* `uint64` quantities (nonces, gas) are `Nat`; the one place the Go code
  can overflow a uint64 — `tx.Nonce()+1` in `SetNonce` — is modelled with
  an explicit `% 2^64`;
* Go `panic` is modelled by the `Option` result `none`;
* external fallible calls (RLP decoding, signature recovery, the backend
  calls made by Commit) are modelled by fields carrying their outcome.
-/

namespace Ethermint

/-- Response codes used by app.go: `abciTypes.CodeTypeOK` and the
`cosmosErrors.Code*` constants that appear in CheckTx / DeliverTx
responses. -/
inductive CodeType where
  | OK
  | Internal
  | UnknownRequest
  | UnknownAddress
  | OutOfGas
deriving DecidableEq, Repr

/-- Mirror of `abciTypes.ResponseCheckTx` (the fields app.go sets). -/
structure ResponseCheckTx where
  code : CodeType
  log : String
deriving DecidableEq, Repr

/-- Mirror of `abciTypes.ResponseDeliverTx` (the fields app.go sets). -/
structure ResponseDeliverTx where
  code : CodeType
  log : String
deriving DecidableEq, Repr

/-- An Ethereum account as seen through the StateDB calls app.go makes:
`GetBalance` and `GetNonce`. -/
structure Account where
  balance : Int
  nonce : Nat
deriving DecidableEq, Repr

/-- The mempool state `checkTxState` (geth `state.StateDB`), modelled as a
partial map from address to account; a missing account reads as
balance 0 / nonce 0, exactly like geth's state object lookups. -/
structure StateDB where
  accounts : Nat → Option Account

/-- Mirror of `StateDB.Exist`. -/
def StateDB.exist (s : StateDB) (a : Nat) : Bool :=
  (s.accounts a).isSome

/-- Mirror of `StateDB.GetNonce` (0 for a missing account). -/
def StateDB.getNonce (s : StateDB) (a : Nat) : Nat :=
  ((s.accounts a).map Account.nonce).getD 0

/-- Mirror of `StateDB.GetBalance` (0 for a missing account). -/
def StateDB.getBalance (s : StateDB) (a : Nat) : Int :=
  ((s.accounts a).map Account.balance).getD 0

/-- Geth's `GetOrNewStateObject` view of an account. -/
def StateDB.getOrNew (s : StateDB) (a : Nat) : Account :=
  (s.accounts a).getD ⟨0, 0⟩

/-- Overwrite one account. -/
def StateDB.setAccount (s : StateDB) (a : Nat) (acc : Account) : StateDB :=
  ⟨fun x => if x = a then some acc else s.accounts x⟩

/-- Mirror of `StateDB.SubBalance`. -/
def StateDB.subBalance (s : StateDB) (a : Nat) (v : Int) : StateDB :=
  s.setAccount a { s.getOrNew a with balance := (s.getOrNew a).balance - v }

/-- Mirror of `StateDB.AddBalance` (creates the account if absent, like
geth's GetOrNewStateObject). -/
def StateDB.addBalance (s : StateDB) (a : Nat) (v : Int) : StateDB :=
  s.setAccount a { s.getOrNew a with balance := (s.getOrNew a).balance + v }

/-- Mirror of `StateDB.SetNonce`. -/
def StateDB.setNonce (s : StateDB) (a : Nat) (n : Nat) : StateDB :=
  s.setAccount a { s.getOrNew a with nonce := n }

/-- Mirror of geth's `StateDB.Copy`: an independent deep copy.  In this
pure-value embedding the copy is the value itself; independent mutability
is inherent to value semantics. -/
def StateDB.copy (s : StateDB) : StateDB := s

/-- A decoded `ethTypes.Transaction`, carrying the accessors app.go uses:
`To, Value, Gas, GasPrice, Nonce, Data, Size, ChainId, Protected`, plus
the outcome of the (external, cryptographic) `ethTypes.Sender` recovery
under each of the two signers app.go can select. -/
structure Tx where
  /-- `tx.To()`: none means contract creation. -/
  toAddr : Option Nat
  /-- `tx.Value()`, a big.Int (negative values constructible via RPC). -/
  value : Int
  /-- `tx.Gas()`: the gas limit of the transaction (uint64). -/
  gasLimit : Nat
  /-- `tx.GasPrice()`. -/
  gasPrice : Nat
  /-- `tx.Nonce()` (uint64). -/
  nonce : Nat
  /-- `tx.Data()`: the payload bytes. -/
  data : List Nat
  /-- `tx.Size()`: the serialized (RLP) size of the transaction in bytes. -/
  size : Nat
  /-- `tx.ChainId()`. -/
  chainId : Nat
  /-- `tx.Protected()`: whether the signature is EIP-155 replay protected. -/
  isProtected : Bool
  /-- Result of `ethTypes.Sender(ethTypes.FrontierSigner{}, tx)`;
  `none` models a recovery error. -/
  frontierSender : Option Nat
  /-- Result of `ethTypes.Sender(ethTypes.NewEIP155Signer(id), tx)` as a
  function of the chain id; `none` models a recovery error. -/
  eip155Sender : Nat → Option Nat

/-- Signer selection and sender recovery, app.go lines 297-303: the
EIP-155 signer with `tx.ChainId()` when `tx.Protected()`, otherwise the
Frontier (legacy) signer. -/
def Tx.recoverSender (tx : Tx) : Option Nat :=
  if tx.isProtected then tx.eip155Sender tx.chainId else tx.frontierSender

/-- Mirror of `tx.Cost()`: `gasPrice * gasLimit + value`. -/
def Tx.cost (tx : Tx) : Int :=
  (tx.gasPrice * tx.gasLimit : Nat) + tx.value

/-- The input to CheckTx/DeliverTx: an opaque byte string together with
the outcome of the external RLP codec (`decodeTx`) on it. -/
structure TxBytes where
  /-- Byte length of the input. -/
  len : Nat
  /-- `decodeTx` outcome: `none` when RLP decoding fails. -/
  decoded : Option Tx
  /-- The `err.Error()` message when decoding fails. -/
  decodeErr : String

/-- Constant `maxTransactionSize` of app.go (32KB). -/
def maxTransactionSize : Nat := 32768

/-- One more than the largest uint64; `tx.Nonce()+1` wraps at this bound
in Go. -/
def UINT64 : Nat := 2 ^ 64

/-- Largest uint64, `math.MaxUint64`. -/
def MaxUint64 : Nat := 2 ^ 64 - 1

/-- geth `params.TxGas`. -/
def TxGas : Nat := 21000

/-- geth `params.TxGasContractCreation`. -/
def TxGasContractCreation : Nat := 53000

/-- geth `params.TxDataZeroGas`. -/
def TxDataZeroGas : Nat := 4

/-- geth `params.TxDataNonZeroGas`. -/
def TxDataNonZeroGas : Nat := 68

/-- Mirror of go-ethereum `core.IntrinsicGas(data, contractCreation,
homestead)`, including its uint64 overflow guards (which return
`vm.ErrOutOfGas`). -/
def intrinsicGas (data : List Nat) (contractCreation homestead : Bool) :
    Except String Nat :=
  let gas := if contractCreation && homestead then TxGasContractCreation else TxGas
  if data.length > 0 then
    let nz := (data.filter (fun b => b ≠ 0)).length
    if (MaxUint64 - gas) / TxDataNonZeroGas < nz then
      .error "out of gas"
    else
      let gas := gas + nz * TxDataNonZeroGas
      let z := data.length - nz
      if (MaxUint64 - gas) / TxDataZeroGas < z then
        .error "out of gas"
      else
        .ok (gas + z * TxDataZeroGas)
  else
    .ok gas

/-- Log message of the bad-nonce rejection, app.go lines 341-343:
`fmt.Sprintf("Nonce not strictly increasing. Expected %d Got %d", ...)`. -/
def badNonceLog (expected got : Nat) : String :=
  "Nonce not strictly increasing. Expected " ++ toString expected ++
    " Got " ++ toString got

/-- Log message of the insufficient-funds rejection, app.go lines 353-355:
`fmt.Sprintf("Current balance: %s, tx cost: %s", ...)`. -/
def insufficientFundsLog (balance cost : Int) : String :=
  "Current balance: " ++ toString balance ++ ", tx cost: " ++ toString cost

/-- The balance/nonce mutations applied to `checkTxState` on a successful
CheckTx, app.go lines 369-377: `SubBalance(from, tx.Cost())`, then
`AddBalance(*to, tx.Value())` when `tx.To() != nil`, then
`SetNonce(from, tx.Nonce()+1)` — the `+1` being Go uint64 arithmetic. -/
def applyTxEffects (s : StateDB) (tx : Tx) (sender : Nat) : StateDB :=
  ((match tx.toAddr with
    | some dst => (s.subBalance sender tx.cost).addBalance dst tx.value
    | none => s.subBalance sender tx.cost)).setNonce
    sender ((tx.nonce + 1) % UINT64)

/-- Mirror of `EthermintApplication.validateTx`, app.go lines 288-380.
The state component of the result is the mempool state `checkTxState`
after the call; `none` models the `panic("Intrinsic gas failed!")` on an
intrinsic-gas computation error. -/
def validateTx (gasLimit : Nat) (s : StateDB) (tx : Tx) :
    Option (ResponseCheckTx × StateDB) :=
  if tx.size > maxTransactionSize then
    some (⟨.Internal, "oversized data"⟩, s)
  else
    match tx.recoverSender with
    | none => some (⟨.Internal, "invalid sender"⟩, s)
    | some sender =>
      if tx.value < 0 then
        some (⟨.UnknownRequest, "negative value"⟩, s)
      else if !(s.exist sender) then
        some (⟨.UnknownAddress, "invalid sender"⟩, s)
      else if gasLimit < tx.gasLimit then
        some (⟨.OutOfGas, "gas limit reached"⟩, s)
      else if s.getNonce sender ≠ tx.nonce then
        some (⟨.Internal, badNonceLog (s.getNonce sender) tx.nonce⟩, s)
      else if s.getBalance sender < tx.cost then
        some (⟨.UnknownRequest, insufficientFundsLog (s.getBalance sender) tx.cost⟩, s)
      else
        match intrinsicGas tx.data tx.toAddr.isNone true with
        | .error _ => none
        | .ok intrGas =>
          if tx.gasLimit < intrGas then
            some (⟨.UnknownRequest, "intrinsic gas too low"⟩, s)
          else
            some (⟨.OK, ""⟩, applyTxEffects s tx sender)

/-- Mirror of `EthermintApplication.CheckTx`, app.go lines 164-177:
decode the bytes (returning `CodeInternal` with the decode error on
failure), then run `validateTx`.  `gasLimit` is `app.backend.GasLimit()`
and `s` is `app.checkTxState`. -/
def CheckTx (gasLimit : Nat) (s : StateDB) (b : TxBytes) :
    Option (ResponseCheckTx × StateDB) :=
  match b.decoded with
  | none => some (⟨.Internal, b.decodeErr⟩, s)
  | some tx => validateTx gasLimit s tx

/-- Mirror of `abciTypes.ResponseInfo` (the fields app.go sets). -/
structure ResponseInfo where
  data : String
  lastBlockHeight : Nat
  lastBlockAppHash : List Nat
deriving DecidableEq, Repr

/-- Mirror of `EthermintApplication.Info`, app.go lines 119-143.
`height` and `hash` are the current head block's number and hash. -/
def Info (height : Nat) (hash : List Nat) : ResponseInfo :=
  if height = 0 then
    { data := "ABCIEthereum", lastBlockHeight := height, lastBlockAppHash := [] }
  else
    { data := "ABCIEthereum", lastBlockHeight := height, lastBlockAppHash := hash }

/-- Mirror of `EthermintApplication.DeliverTx`, app.go lines 181-205:
decode (failure is reported, never fatal); hand the transaction to the
backend; if the backend response is an error (`res.IsErr()`, i.e. a
non-OK code), return that response unchanged and continue the block;
otherwise return code OK.  `backendDeliver` is `app.backend.DeliverTx`.
The function is total: no input aborts the process. -/
def DeliverTx (backendDeliver : Tx → ResponseDeliverTx) (b : TxBytes) :
    ResponseDeliverTx :=
  match b.decoded with
  | none => ⟨.Internal, b.decodeErr⟩
  | some tx =>
    if (backendDeliver tx).code ≠ .OK then backendDeliver tx
    else ⟨.OK, ""⟩

/-- Mirror of `abciTypes.RequestBeginBlock` as stored by app.go (only the
proposer address is read from it). -/
structure RequestBeginBlock where
  proposerAddress : Nat
deriving DecidableEq, Repr

/-- The fields of `EthermintApplication` that `Commit` reads or writes:
the mempool state `checkTxState` and the per-block transient
`requestBeginBlock`. -/
structure App where
  checkTxState : StateDB
  requestBeginBlock : Option RequestBeginBlock

/-- Mirror of `abciTypes.ResponseCommit` (the field app.go sets). -/
structure ResponseCommit where
  data : List Nat
deriving DecidableEq, Repr

/-- Outcomes of the two external calls `Commit` makes:
`app.backend.Commit(...)` (the new block hash) and
`app.getCurrentState()` (the newly committed state). -/
structure CommitBackendResult where
  blockHash : Except String (List Nat)
  currentState : Except String StateDB

/-- Mirror of `EthermintApplication.Commit`, app.go lines 237-260:
panic (modelled as `none`) if the backend commit errored or the new
committed state cannot be obtained; otherwise rebuild `checkTxState` as a
copy of the committed state, clear `requestBeginBlock`, and answer with
the block hash. -/
def Commit (_app : App) (r : CommitBackendResult) :
    Option (ResponseCommit × App) :=
  match r.blockHash with
  | .error _ => none
  | .ok h =>
    match r.currentState with
    | .error _ => none
    | .ok st =>
      some (⟨h⟩, { checkTxState := st.copy, requestBeginBlock := none })

/-!
Spec-side admission-order definitions, used only to compare the code's
CheckTx with the order the spec claims (a refinement comparison).
-/

/-- Steps 3 to 9 of the claimed admission check list (signer selection and
sender recovery onward), written from the spec's words as a pure response.
These steps read identically in the claimed order and in the code's order;
`none` stands for the abort of the intrinsic-gas computation-failure
case. -/
def signerOnwardChecks (gasLimit : Nat) (s : StateDB) (tx : Tx) :
    Option ResponseCheckTx :=
  match tx.recoverSender with
  | none => some ⟨.Internal, "invalid sender"⟩
  | some sender =>
    if tx.value < 0 then
      some ⟨.UnknownRequest, "negative value"⟩
    else if !(s.exist sender) then
      some ⟨.UnknownAddress, "invalid sender"⟩
    else if gasLimit < tx.gasLimit then
      some ⟨.OutOfGas, "gas limit reached"⟩
    else if s.getNonce sender ≠ tx.nonce then
      some ⟨.Internal, badNonceLog (s.getNonce sender) tx.nonce⟩
    else if s.getBalance sender < tx.cost then
      some ⟨.UnknownRequest, insufficientFundsLog (s.getBalance sender) tx.cost⟩
    else
      match intrinsicGas tx.data tx.toAddr.isNone true with
      | .error _ => none
      | .ok intrGas =>
        if tx.gasLimit < intrGas then
          some ⟨.UnknownRequest, "intrinsic gas too low"⟩
        else
          some ⟨.OK, ""⟩

/-- Modelled from the claim's wording, literally: step 1 rejects on the
raw input's byte length before any decoding is attempted, step 2 decodes,
then steps 3 to 9 follow. -/
def checkTxClaimedOrder (gasLimit : Nat) (s : StateDB) (b : TxBytes) :
    Option ResponseCheckTx :=
  if b.len > maxTransactionSize then
    some ⟨.Internal, "oversized data"⟩
  else
    match b.decoded with
    | none => some ⟨.Internal, b.decodeErr⟩
    | some tx => signerOnwardChecks gasLimit s tx

/-- Modelled from the amended claim's wording: decode first (returning the
decode error on failure), then reject oversized transactions by their
serialized size, then steps 3 to 9 in the claimed order, stopping at the
first failure. -/
def checkTxDecodeFirstOrder (gasLimit : Nat) (s : StateDB) (b : TxBytes) :
    Option ResponseCheckTx :=
  match b.decoded with
  | none => some ⟨.Internal, b.decodeErr⟩
  | some tx =>
    if tx.size > maxTransactionSize then
      some ⟨.Internal, "oversized data"⟩
    else
      signerOnwardChecks gasLimit s tx

/-!
Concrete inputs for the literal spec scenarios.
-/

/-- Block gas limit used by the concrete scenarios (8,000,000). -/
def blockGasLimit : Nat := 8000000

/-- The state with no accounts. -/
def emptyState : StateDB := ⟨fun _ => none⟩

/-- Mempool state of spec scenarios 2 and 3: sender A (address 1) has
balance 1000 and nonce 5. -/
def scenarioState : StateDB :=
  ⟨fun a => if a = 1 then some ⟨1000, 5⟩ else none⟩

/-- The transaction of spec scenario 2: from A (address 1) to B
(address 2), value 100, gas 21000, gasPrice 1, nonce 5; empty payload,
unprotected, recovering to A under the legacy signer. -/
def goodTx : Tx :=
  { toAddr := some 2, value := 100, gasLimit := 21000, gasPrice := 1,
    nonce := 5, data := [], size := 110, chainId := 0, isProtected := false,
    frontierSender := some 1, eip155Sender := fun _ => some 1 }

/-- The transaction of spec scenario 3: the same as scenario 2 but with
nonce 7. -/
def badNonceTx : Tx := { goodTx with nonce := 7 }

/-- A variant of `scenarioState` in which A can afford `goodTx`:
balance 30000, nonce 5. -/
def richState : StateDB :=
  ⟨fun a => if a = 1 then some ⟨30000, 5⟩ else none⟩

/-- A state whose account A has the largest uint64 nonce. -/
def maxNonceState : StateDB :=
  ⟨fun a => if a = 1 then some ⟨0, 2 ^ 64 - 1⟩ else none⟩

/-- A free transaction (value 0, gasPrice 0) from A with the largest
uint64 nonce. -/
def maxNonceTx : Tx :=
  { goodTx with nonce := 2 ^ 64 - 1, value := 0, gasPrice := 0 }

/-- A 40 KiB input that does not RLP-decode. -/
def oversizedGarbage : TxBytes :=
  { len := 40960, decoded := none,
    decodeErr := "rlp: expected input list for types.txdata" }

/-- A 40 KiB input that decodes to a transaction of serialized size
40960. -/
def oversizedDecodable : TxBytes :=
  { len := 40960, decoded := some { goodTx with size := 40960 },
    decodeErr := "" }

/-- The bytes of `goodTx` (a decodable input). -/
def goodTxBytes : TxBytes :=
  { len := 110, decoded := some goodTx, decodeErr := "" }

/-- The bytes of `badNonceTx` (a decodable input). -/
def badNonceTxBytes : TxBytes :=
  { len := 110, decoded := some badNonceTx, decodeErr := "" }

/-- An application value used in the Commit scenarios: some mempool state
and a pending BeginBlock request. -/
def appInBlock : App :=
  { checkTxState := scenarioState, requestBeginBlock := some ⟨3⟩ }

/-- A Commit in which both backend calls succeed. -/
def commitOkResult : CommitBackendResult :=
  { blockHash := .ok [1, 2, 3], currentState := .ok richState }

/-- A Commit in which the backend finalization fails. -/
def commitHashFailResult : CommitBackendResult :=
  { blockHash := .error "database closed", currentState := .ok richState }

/-- A Commit in which the post-commit state cannot be obtained. -/
def commitStateFailResult : CommitBackendResult :=
  { blockHash := .ok [1, 2, 3], currentState := .error "missing trie node" }

/-- A backend that delivers every transaction successfully. -/
def backendAcceptAll : Tx → ResponseDeliverTx :=
  fun _ => ⟨.OK, ""⟩

/-- A backend that rejects every transaction. -/
def backendRejectAll : Tx → ResponseDeliverTx :=
  fun _ => ⟨.OutOfGas, "gas limit reached"⟩

/-!
Helper lemmas about the state accessors, and a case analysis of
`validateTx` shared by the proofs below.
-/

theorem StateDB.balance_getOrNew (s : StateDB) (a : Nat) :
    (s.getOrNew a).balance = s.getBalance a := by
  unfold StateDB.getOrNew StateDB.getBalance
  cases s.accounts a <;> rfl

theorem StateDB.nonce_getOrNew (s : StateDB) (a : Nat) :
    (s.getOrNew a).nonce = s.getNonce a := by
  unfold StateDB.getOrNew StateDB.getNonce
  cases s.accounts a <;> rfl

theorem StateDB.getBalance_setAccount (s : StateDB) (a : Nat) (acc : Account)
    (x : Nat) :
    (s.setAccount a acc).getBalance x =
      if x = a then acc.balance else s.getBalance x := by
  unfold StateDB.setAccount StateDB.getBalance
  by_cases hx : x = a <;> simp [hx]

theorem StateDB.getNonce_setAccount (s : StateDB) (a : Nat) (acc : Account)
    (x : Nat) :
    (s.setAccount a acc).getNonce x =
      if x = a then acc.nonce else s.getNonce x := by
  unfold StateDB.setAccount StateDB.getNonce
  by_cases hx : x = a <;> simp [hx]

theorem StateDB.getBalance_subBalance (s : StateDB) (a : Nat) (v : Int)
    (x : Nat) :
    (s.subBalance a v).getBalance x =
      if x = a then s.getBalance a - v else s.getBalance x := by
  unfold StateDB.subBalance
  rw [StateDB.getBalance_setAccount]
  by_cases hx : x = a <;> simp [hx, StateDB.balance_getOrNew]

theorem StateDB.getBalance_addBalance (s : StateDB) (a : Nat) (v : Int)
    (x : Nat) :
    (s.addBalance a v).getBalance x =
      if x = a then s.getBalance a + v else s.getBalance x := by
  unfold StateDB.addBalance
  rw [StateDB.getBalance_setAccount]
  by_cases hx : x = a <;> simp [hx, StateDB.balance_getOrNew]

theorem StateDB.getBalance_setNonce (s : StateDB) (a n x : Nat) :
    (s.setNonce a n).getBalance x = s.getBalance x := by
  unfold StateDB.setNonce
  rw [StateDB.getBalance_setAccount]
  by_cases hx : x = a <;> simp [hx, StateDB.balance_getOrNew]

theorem StateDB.getNonce_setNonce (s : StateDB) (a n x : Nat) :
    (s.setNonce a n).getNonce x = if x = a then n else s.getNonce x := by
  unfold StateDB.setNonce
  rw [StateDB.getNonce_setAccount]

theorem StateDB.getNonce_subBalance (s : StateDB) (a : Nat) (v : Int)
    (x : Nat) :
    (s.subBalance a v).getNonce x = s.getNonce x := by
  unfold StateDB.subBalance
  rw [StateDB.getNonce_setAccount]
  by_cases hx : x = a <;> simp [hx, StateDB.nonce_getOrNew]

theorem StateDB.getNonce_addBalance (s : StateDB) (a : Nat) (v : Int)
    (x : Nat) :
    (s.addBalance a v).getNonce x = s.getNonce x := by
  unfold StateDB.addBalance
  rw [StateDB.getNonce_setAccount]
  by_cases hx : x = a <;> simp [hx, StateDB.nonce_getOrNew]

theorem append_ne_empty_left (a b : String) (ha : a ≠ "") : a ++ b ≠ "" := by
  intro hc
  apply ha
  have hd := congrArg String.data hc
  rw [String.data_append] at hd
  exact String.ext (by rw [(List.append_eq_nil.mp hd).1])

theorem badNonceLog_ne_empty (expected got : Nat) :
    badNonceLog expected got ≠ "" := by
  unfold badNonceLog
  exact append_ne_empty_left _ _
    (append_ne_empty_left _ _ (append_ne_empty_left _ _ (by decide)))

theorem insufficientFundsLog_ne_empty (balance cost : Int) :
    insufficientFundsLog balance cost ≠ "" := by
  unfold insufficientFundsLog
  exact append_ne_empty_left _ _
    (append_ne_empty_left _ _ (append_ne_empty_left _ _ (by decide)))

theorem validateTx_cases (gl : Nat) (s : StateDB) (tx : Tx)
    (r : ResponseCheckTx) (s' : StateDB)
    (h : validateTx gl s tx = some (r, s')) :
    (∃ sender, tx.recoverSender = some sender ∧ r = ⟨.OK, ""⟩ ∧
        0 ≤ tx.value ∧ s.exist sender = true ∧
        s.getNonce sender = tx.nonce ∧ tx.cost ≤ s.getBalance sender ∧
        s' = applyTxEffects s tx sender) ∨
    (r.code ≠ .OK ∧ r.log ≠ "" ∧ s' = s) := by
  unfold validateTx at h
  split at h
  · simp only [Option.some.injEq, Prod.mk.injEq] at h
    exact Or.inr ⟨h.1 ▸ (by simp), h.1 ▸ (by decide), h.2.symm⟩
  · split at h
    · simp only [Option.some.injEq, Prod.mk.injEq] at h
      exact Or.inr ⟨h.1 ▸ (by simp), h.1 ▸ (by decide), h.2.symm⟩
    next sender hrec =>
      split at h
      · simp only [Option.some.injEq, Prod.mk.injEq] at h
        exact Or.inr ⟨h.1 ▸ (by simp), h.1 ▸ (by decide), h.2.symm⟩
      next hval =>
        split at h
        · simp only [Option.some.injEq, Prod.mk.injEq] at h
          exact Or.inr ⟨h.1 ▸ (by simp), h.1 ▸ (by decide), h.2.symm⟩
        next hex =>
          split at h
          · simp only [Option.some.injEq, Prod.mk.injEq] at h
            exact Or.inr ⟨h.1 ▸ (by simp), h.1 ▸ (by decide), h.2.symm⟩
          next hgas =>
            split at h
            · simp only [Option.some.injEq, Prod.mk.injEq] at h
              exact Or.inr ⟨h.1 ▸ (by simp),
                h.1 ▸ (badNonceLog_ne_empty (s.getNonce sender) tx.nonce),
                h.2.symm⟩
            next hnonce =>
              split at h
              · simp only [Option.some.injEq, Prod.mk.injEq] at h
                exact Or.inr ⟨h.1 ▸ (by simp),
                  h.1 ▸ (insufficientFundsLog_ne_empty (s.getBalance sender) tx.cost),
                  h.2.symm⟩
              next hfunds =>
                split at h
                · exact Option.noConfusion h
                next ig hig =>
                  split at h
                  · simp only [Option.some.injEq, Prod.mk.injEq] at h
                    exact Or.inr ⟨h.1 ▸ (by simp), h.1 ▸ (by decide), h.2.symm⟩
                  · simp only [Option.some.injEq, Prod.mk.injEq] at h
                    refine Or.inl ⟨sender, hrec, h.1.symm, not_lt.mp hval,
                      ?_, not_ne_iff.mp hnonce, not_lt.mp hfunds, h.2.symm⟩
                    simpa using hex

/-!
The claims.
-/

/-- C1 (counterexample): the code does not check the size bound on the raw
bytes before decoding.  On a 40 KiB input that fails to decode, CheckTx
answers with the decode error (the MalformedTx response), while the
claimed order produces the OversizedTx rejection first; and two 40 KiB
inputs that differ only in their decode outcome receive different
responses, so decoding is attempted before any size rejection. -/
theorem c1_order_counterexample :
    oversizedGarbage.len > maxTransactionSize ∧
    (CheckTx blockGasLimit emptyState oversizedGarbage).map Prod.fst ≠
      checkTxClaimedOrder blockGasLimit emptyState oversizedGarbage ∧
    oversizedDecodable.len = oversizedGarbage.len ∧
    (CheckTx blockGasLimit emptyState oversizedGarbage).map Prod.fst ≠
      (CheckTx blockGasLimit emptyState oversizedDecodable).map Prod.fst := by
  refine ⟨by decide, by decide, rfl, by decide⟩

/-- C1 (amended): CheckTx decodes first, returning MalformedTx on failure;
it then performs the admission checks on the decoded transaction in the
order: size bound (on the serialized transaction size), signer selection
and sender recovery, non-negative value, sender existence, block gas
ceiling, nonce equality, funds, intrinsic gas — stopping at the first
failure.  The response of the code's CheckTx coincides with this ordered
checklist on every input. -/
theorem c1_order_amended (gl : Nat) (s : StateDB) (b : TxBytes) :
    (CheckTx gl s b).map Prod.fst = checkTxDecodeFirstOrder gl s b := by
  unfold CheckTx checkTxDecodeFirstOrder
  cases b.decoded with
  | none => rfl
  | some tx =>
    unfold validateTx signerOnwardChecks
    repeat' split
    all_goals rfl



/-- C2 (counterexample): in the literal scenario — A has balance 1000 and
nonce 5, T carries value 100, gas 21000, gasPrice 1, nonce 5 — the cost
of T is 100 + 1 * 21000 = 21100, which exceeds A's balance 1000, so
CheckTx does not return OK as the claim states. -/
theorem c2_good_tx_counterexample :
    goodTx.cost = 21100 ∧ scenarioState.getBalance 1 = 1000 ∧
    (validateTx blockGasLimit scenarioState goodTx).map (fun p => p.1.code) =
      some CodeType.UnknownRequest ∧
    some CodeType.UnknownRequest ≠ some CodeType.OK := by
  exact ⟨rfl, rfl, rfl, by decide⟩

/-- C2 (amended): in the literal scenario the transaction's cost 21100
exceeds A's balance 1000, so CheckTx (run against a backend block gas
limit of 8,000,000) rejects with InsufficientFunds — surfaced as
UnknownRequest with a log reporting the balance and the cost — and the
mempool state is unchanged: A keeps nonce 5 and balance 1000. -/
theorem c2_good_tx_amended :
    validateTx blockGasLimit scenarioState goodTx =
      some (⟨.UnknownRequest, "Current balance: 1000, tx cost: 21100"⟩,
        scenarioState) ∧
    scenarioState.getNonce 1 = 5 ∧ scenarioState.getBalance 1 = 1000 := by
  exact ⟨rfl, rfl, rfl⟩

/-- C3 (counterexample): the nonce written back for an admitted
transaction is Go's uint64 `tx.Nonce()+1`, which wraps: a transaction
with the largest uint64 nonce is admitted (code OK) and leaves the sender
with nonce 0, not T.nonce + 1. -/
theorem c3_nonce_wrap_counterexample :
    maxNonceState.getNonce 1 = maxNonceTx.nonce ∧
    (validateTx blockGasLimit maxNonceState maxNonceTx).map
        (fun p => (p.1.code, p.2.getNonce 1)) = some (CodeType.OK, 0) ∧
    (0 : Nat) ≠ maxNonceTx.nonce + 1 := by
  exact ⟨rfl, rfl, by decide⟩

/-- C3 (amended): for every transaction admitted (code OK) by validateTx:
T.nonce equals the mempool nonce of the recovered sender at admission
time, and afterwards the sender's nonce is (T.nonce + 1) mod 2^64 (Go
uint64 arithmetic), the sender's balance is decreased by
cost(T) = gasPrice * gasLimit + value (then credited T.value back if the
recipient is the sender itself, the two updates being applied in
sequence), and every recipient other than the sender is credited
T.value. -/
theorem c3_admission_effects (gl : Nat) (s : StateDB) (tx : Tx)
    (r : ResponseCheckTx) (s' : StateDB)
    (h : validateTx gl s tx = some (r, s')) (hok : r.code = .OK) :
    ∃ sender, tx.recoverSender = some sender ∧
      tx.nonce = s.getNonce sender ∧
      s'.getNonce sender = (tx.nonce + 1) % UINT64 ∧
      s'.getBalance sender = s.getBalance sender - tx.cost +
        (if tx.toAddr = some sender then tx.value else 0) ∧
      (∀ dst, tx.toAddr = some dst → dst ≠ sender →
        s'.getBalance dst = s.getBalance dst + tx.value) := by
  rcases validateTx_cases gl s tx r s' h with
    ⟨sender, hrec, _, _, _, hnonce, _, hs'⟩ | ⟨hne, _, _⟩
  · subst hs'
    refine ⟨sender, hrec, hnonce.symm, ?_, ?_, ?_⟩
    · unfold applyTxEffects
      cases htx : tx.toAddr with
      | none => simp [StateDB.getNonce_setNonce]
      | some dst => simp [StateDB.getNonce_setNonce]
    · unfold applyTxEffects
      rw [StateDB.getBalance_setNonce]
      cases htx : tx.toAddr with
      | none => simp [StateDB.getBalance_subBalance]
      | some dst =>
        by_cases hd : sender = dst
        · subst hd
          simp [StateDB.getBalance_addBalance, StateDB.getBalance_subBalance]
        · simp [StateDB.getBalance_addBalance, StateDB.getBalance_subBalance,
            hd, Ne.symm hd]
    · intro dst hdst hne2
      unfold applyTxEffects
      rw [StateDB.getBalance_setNonce]
      simp only [hdst]
      simp [StateDB.getBalance_addBalance, StateDB.getBalance_subBalance, hne2]
  · exact absurd hok hne

/-- Witness for c3_admission_effects: the scenario transaction accepted
against a state in which A can afford it. -/
theorem c3_admission_effects_witness :
    ∃ sender, goodTx.recoverSender = some sender ∧
      goodTx.nonce = richState.getNonce sender ∧
      (applyTxEffects richState goodTx 1).getNonce sender =
        (goodTx.nonce + 1) % UINT64 ∧
      (applyTxEffects richState goodTx 1).getBalance sender =
        richState.getBalance sender - goodTx.cost +
          (if goodTx.toAddr = some sender then goodTx.value else 0) ∧
      (∀ dst, goodTx.toAddr = some dst → dst ≠ sender →
        (applyTxEffects richState goodTx 1).getBalance dst =
          richState.getBalance dst + goodTx.value) :=
  c3_admission_effects blockGasLimit richState goodTx ⟨.OK, ""⟩
    (applyTxEffects richState goodTx 1) rfl rfl

/-- C4: whenever CheckTx rejects a transaction (any non-OK code, the
decode failure included), the mempool state is returned unchanged; and
the BadNonce rejection of the literal scenario (expected nonce 5,
submitted nonce 7) carries the log
"Nonce not strictly increasing. Expected 5 Got 7", which contains
"Expected 5 Got 7". -/
theorem c4_reject_leaves_state_unchanged (gl : Nat) (s : StateDB)
    (b : TxBytes) (r : ResponseCheckTx) (s' : StateDB)
    (h : CheckTx gl s b = some (r, s')) (hne : r.code ≠ .OK) :
    s' = s ∧
    (validateTx blockGasLimit scenarioState badNonceTx =
        some (⟨.Internal, badNonceLog 5 7⟩, scenarioState) ∧
      ∃ p q, badNonceLog 5 7 = p ++ "Expected 5 Got 7" ++ q) := by
  refine ⟨?_, rfl, "Nonce not strictly increasing. ", "", by decide⟩
  unfold CheckTx at h
  cases hb : b.decoded with
  | none =>
    rw [hb] at h
    simp only [Option.some.injEq, Prod.mk.injEq] at h
    exact h.2.symm
  | some tx =>
    rw [hb] at h
    rcases validateTx_cases gl s tx r s' h with
      ⟨_, _, hr, _⟩ | ⟨_, _, hs'⟩
    · exact absurd (by rw [hr]) hne
    · exact hs'

/-- Witness for c4_reject_leaves_state_unchanged: the bad-nonce input of
scenario 3 is rejected and the state comes back unchanged. -/
theorem c4_reject_witness :
    scenarioState = scenarioState ∧
    (validateTx blockGasLimit scenarioState badNonceTx =
        some (⟨.Internal, badNonceLog 5 7⟩, scenarioState) ∧
      ∃ p q, badNonceLog 5 7 = p ++ "Expected 5 Got 7" ++ q) :=
  c4_reject_leaves_state_unchanged blockGasLimit scenarioState
    badNonceTxBytes ⟨.Internal, badNonceLog 5 7⟩ scenarioState rfl
    (by decide)

/-- C5: the rejection-to-code mapping of CheckTx.  MalformedTx (decode
failure), OversizedTx, InvalidSignature and BadNonce surface as Internal;
NegativeValue, InsufficientFunds and IntrinsicGasTooLow surface as
UnknownRequest; UnknownSender surfaces as UnknownAddress; GasLimitExceeded
surfaces as OutOfGas; and every non-OK response carries a non-empty log
(the MalformedTx log being the upstream codec's error message). -/
theorem c5_error_code_mapping (gl : Nat) (s : StateDB) (b : TxBytes)
    (tx : Tx) :
    (b.decoded = none →
      CheckTx gl s b = some (⟨.Internal, b.decodeErr⟩, s)) ∧
    (tx.size > maxTransactionSize →
      validateTx gl s tx = some (⟨.Internal, "oversized data"⟩, s)) ∧
    (tx.size ≤ maxTransactionSize → tx.recoverSender = none →
      validateTx gl s tx = some (⟨.Internal, "invalid sender"⟩, s)) ∧
    (∀ sender, tx.size ≤ maxTransactionSize →
      tx.recoverSender = some sender → tx.value < 0 →
      validateTx gl s tx = some (⟨.UnknownRequest, "negative value"⟩, s)) ∧
    (∀ sender, tx.size ≤ maxTransactionSize →
      tx.recoverSender = some sender → 0 ≤ tx.value →
      s.exist sender = false →
      validateTx gl s tx = some (⟨.UnknownAddress, "invalid sender"⟩, s)) ∧
    (∀ sender, tx.size ≤ maxTransactionSize →
      tx.recoverSender = some sender → 0 ≤ tx.value →
      s.exist sender = true → gl < tx.gasLimit →
      validateTx gl s tx = some (⟨.OutOfGas, "gas limit reached"⟩, s)) ∧
    (∀ sender, tx.size ≤ maxTransactionSize →
      tx.recoverSender = some sender → 0 ≤ tx.value →
      s.exist sender = true → tx.gasLimit ≤ gl →
      s.getNonce sender ≠ tx.nonce →
      validateTx gl s tx =
        some (⟨.Internal, badNonceLog (s.getNonce sender) tx.nonce⟩, s)) ∧
    (∀ sender, tx.size ≤ maxTransactionSize →
      tx.recoverSender = some sender → 0 ≤ tx.value →
      s.exist sender = true → tx.gasLimit ≤ gl →
      s.getNonce sender = tx.nonce → s.getBalance sender < tx.cost →
      validateTx gl s tx =
        some (⟨.UnknownRequest,
          insufficientFundsLog (s.getBalance sender) tx.cost⟩, s)) ∧
    (∀ sender ig, tx.size ≤ maxTransactionSize →
      tx.recoverSender = some sender → 0 ≤ tx.value →
      s.exist sender = true → tx.gasLimit ≤ gl →
      s.getNonce sender = tx.nonce → tx.cost ≤ s.getBalance sender →
      intrinsicGas tx.data tx.toAddr.isNone true = .ok ig →
      tx.gasLimit < ig →
      validateTx gl s tx =
        some (⟨.UnknownRequest, "intrinsic gas too low"⟩, s)) ∧
    (∀ r s', validateTx gl s tx = some (r, s') → r.code ≠ .OK →
      r.log ≠ "") := by
  refine ⟨?_, ?_, ?_, ?_, ?_, ?_, ?_, ?_, ?_, ?_⟩
  · intro hd
    simp [CheckTx, hd]
  · intro hsz
    simp [validateTx, hsz]
  · intro hsz hrec
    simp [validateTx, not_lt.mpr hsz, hrec]
  · intro sender hsz hrec hval
    simp [validateTx, not_lt.mpr hsz, hrec, hval]
  · intro sender hsz hrec hval hex
    simp [validateTx, not_lt.mpr hsz, hrec, not_lt.mpr hval, hex]
  · intro sender hsz hrec hval hex hgas
    simp [validateTx, not_lt.mpr hsz, hrec, not_lt.mpr hval, hex, hgas]
  · intro sender hsz hrec hval hex hgas hnonce
    simp [validateTx, not_lt.mpr hsz, hrec, not_lt.mpr hval, hex,
      not_lt.mpr hgas, hnonce]
  · intro sender hsz hrec hval hex hgas hnonce hfunds
    simp [validateTx, not_lt.mpr hsz, hrec, not_lt.mpr hval, hex,
      not_lt.mpr hgas, hnonce, hfunds]
  · intro sender ig hsz hrec hval hex hgas hnonce hfunds hig hlow
    simp [validateTx, not_lt.mpr hsz, hrec, not_lt.mpr hval, hex,
      not_lt.mpr hgas, hnonce, not_lt.mpr hfunds, hig, hlow]
  · intro r s' h hne
    rcases validateTx_cases gl s tx r s' h with
      ⟨_, _, hr, _⟩ | ⟨_, hlog, _⟩
    · exact absurd (by rw [hr]) hne
    · exact hlog

/-- Witness for c5_error_code_mapping: the bad-nonce rejection surfacing
as Internal, the insufficient-funds rejection surfacing as UnknownRequest,
and the non-emptiness of the latter's log, all at concrete inputs. -/
theorem c5_error_code_mapping_witness :
    validateTx blockGasLimit scenarioState badNonceTx =
      some (⟨.Internal, badNonceLog 5 7⟩, scenarioState) ∧
    validateTx blockGasLimit scenarioState goodTx =
      some (⟨.UnknownRequest, insufficientFundsLog 1000 21100⟩,
        scenarioState) ∧
    insufficientFundsLog 1000 21100 ≠ "" :=
  ⟨(c5_error_code_mapping blockGasLimit scenarioState badNonceTxBytes
      badNonceTx).2.2.2.2.2.2.1 1 (by decide) rfl (by decide) rfl
      (by decide) (by decide),
   (c5_error_code_mapping blockGasLimit scenarioState goodTxBytes
      goodTx).2.2.2.2.2.2.2.1 1 (by decide) rfl (by decide) rfl
      (by decide) rfl (by decide),
   (c5_error_code_mapping blockGasLimit scenarioState goodTxBytes
      goodTx).2.2.2.2.2.2.2.2.2
      ⟨.UnknownRequest, insufficientFundsLog 1000 21100⟩ scenarioState
      rfl (by decide)⟩

/-- C6: Info returns an empty lastBlockAppHash exactly at height 0 (fresh
chain), and at every height greater than 0 it returns the current head
block's hash together with that height. -/
theorem c6_info_sentinel (height : Nat) (hash : List Nat) :
    (height = 0 → Info height hash =
      { data := "ABCIEthereum", lastBlockHeight := 0,
        lastBlockAppHash := [] }) ∧
    (0 < height → Info height hash =
      { data := "ABCIEthereum", lastBlockHeight := height,
        lastBlockAppHash := hash }) := by
  constructor
  · intro h
    subst h
    rfl
  · intro h
    unfold Info
    rw [if_neg (Nat.pos_iff_ne_zero.mp h)]

/-- Witness for c6_info_sentinel: heights 0 and 3. -/
theorem c6_info_sentinel_witness :
    Info 0 [9] = ⟨"ABCIEthereum", 0, []⟩ ∧
    Info 3 [9] = ⟨"ABCIEthereum", 3, [9]⟩ :=
  ⟨(c6_info_sentinel 0 [9]).1 rfl, (c6_info_sentinel 3 [9]).2 (by decide)⟩

/-- C7: after every successful Commit (both backend calls succeed), the
mempool state is rebuilt as a copy of the newly committed state (value
equality; independence is inherent to the value semantics of the
embedding), the stored BeginBlock request is cleared, and the response
data is the block hash returned by the backend. -/
theorem c7_commit_rebuilds_mempool (app : App) (r : CommitBackendResult)
    (h : List Nat) (st : StateDB)
    (hh : r.blockHash = .ok h) (hst : r.currentState = .ok st) :
    Commit app r =
      some (⟨h⟩, { checkTxState := st, requestBeginBlock := none }) := by
  unfold Commit
  rw [hh, hst]
  rfl

/-- Witness for c7_commit_rebuilds_mempool at a concrete successful
commit. -/
theorem c7_commit_rebuilds_mempool_witness :
    Commit appInBlock commitOkResult =
      some (⟨[1, 2, 3]⟩,
        { checkTxState := richState, requestBeginBlock := none }) :=
  c7_commit_rebuilds_mempool appInBlock commitOkResult [1, 2, 3]
    richState rfl rfl

/-- C8: if the backend finalization fails, or the post-commit state
cannot be obtained, Commit panics (modelled by `none`) instead of
returning a response. -/
theorem c8_commit_fatal (app : App) (r : CommitBackendResult)
    (hfail : (∃ e, r.blockHash = .error e) ∨
      (∃ e, r.currentState = .error e)) :
    Commit app r = none := by
  rcases hfail with ⟨e, he⟩ | ⟨e, he⟩
  · unfold Commit
    rw [he]
  · unfold Commit
    cases hb : r.blockHash with
    | error e2 => rfl
    | ok hsh => rw [he]

/-- Witness for c8_commit_fatal: both failure modes at concrete inputs. -/
theorem c8_commit_fatal_witness :
    Commit appInBlock commitHashFailResult = none ∧
    Commit appInBlock commitStateFailResult = none :=
  ⟨c8_commit_fatal appInBlock commitHashFailResult
      (Or.inl ⟨"database closed", rfl⟩),
   c8_commit_fatal appInBlock commitStateFailResult
      (Or.inr ⟨"missing trie node", rfl⟩)⟩

/-- C9: DeliverTx is total (a per-transaction failure never aborts the
process): a decode failure yields the Internal code with the decode error
in the log, a backend rejection is returned as the backend's own error
response (the block continues), and a successful delivery yields code
OK. -/
theorem c9_deliver_tx_responses (backendDeliver : Tx → ResponseDeliverTx)
    (b : TxBytes) :
    (b.decoded = none →
      DeliverTx backendDeliver b = ⟨.Internal, b.decodeErr⟩) ∧
    (∀ tx, b.decoded = some tx → (backendDeliver tx).code ≠ .OK →
      DeliverTx backendDeliver b = backendDeliver tx) ∧
    (∀ tx, b.decoded = some tx → (backendDeliver tx).code = .OK →
      DeliverTx backendDeliver b = ⟨.OK, ""⟩) := by
  refine ⟨?_, ?_, ?_⟩
  · intro hd
    simp [DeliverTx, hd]
  · intro tx hd hne
    simp [DeliverTx, hd, hne]
  · intro tx hd hok
    simp [DeliverTx, hd, hok]

/-- Witness for c9_deliver_tx_responses: all three outcomes at concrete
inputs. -/
theorem c9_deliver_tx_responses_witness :
    DeliverTx backendAcceptAll oversizedGarbage =
      ⟨.Internal, oversizedGarbage.decodeErr⟩ ∧
    DeliverTx backendRejectAll goodTxBytes = backendRejectAll goodTx ∧
    DeliverTx backendAcceptAll goodTxBytes = ⟨.OK, ""⟩ :=
  ⟨(c9_deliver_tx_responses backendAcceptAll oversizedGarbage).1 rfl,
   (c9_deliver_tx_responses backendRejectAll goodTxBytes).2.1 goodTx rfl
      (by decide),
   (c9_deliver_tx_responses backendAcceptAll goodTxBytes).2.2 goodTx rfl
      rfl⟩

/-- C10: CheckTx admission preserves non-negativity of mempool balances —
if every balance is non-negative before a validateTx call that returns
(whether it admits or rejects), every balance is non-negative
afterwards. -/
theorem c10_balances_stay_nonneg (gl : Nat) (s : StateDB) (tx : Tx)
    (r : ResponseCheckTx) (s' : StateDB)
    (hpos : ∀ a, 0 ≤ s.getBalance a)
    (h : validateTx gl s tx = some (r, s')) :
    ∀ a, 0 ≤ s'.getBalance a := by
  rcases validateTx_cases gl s tx r s' h with
    ⟨sender, _, _, hval, _, _, hfunds, hs'⟩ | ⟨_, _, hs'⟩
  · subst hs'
    intro a
    unfold applyTxEffects
    rw [StateDB.getBalance_setNonce]
    cases htx : tx.toAddr with
    | none =>
      rw [StateDB.getBalance_subBalance]
      by_cases ha : a = sender
      · subst ha
        rw [if_pos rfl]
        omega
      · rw [if_neg ha]
        exact hpos a
    | some dst =>
      rw [StateDB.getBalance_addBalance]
      by_cases had : a = dst
      · subst had
        rw [if_pos rfl, StateDB.getBalance_subBalance]
        by_cases has : a = sender
        · subst has
          rw [if_pos rfl]
          omega
        · rw [if_neg has]
          have := hpos a
          omega
      · rw [if_neg had, StateDB.getBalance_subBalance]
        by_cases has : a = sender
        · subst has
          rw [if_pos rfl]
          omega
        · rw [if_neg has]
          exact hpos a
  · subst hs'
    exact hpos

/-- Balances of the concrete rich scenario state are non-negative. -/
theorem richState_balances_nonneg : ∀ a, 0 ≤ richState.getBalance a := by
  intro a
  unfold richState StateDB.getBalance
  by_cases ha : a = 1 <;> simp [ha]

/-- Witness for c10_balances_stay_nonneg: the accepted scenario, read at
the recipient's account. -/
theorem c10_balances_stay_nonneg_witness :
    0 ≤ (applyTxEffects richState goodTx 1).getBalance 2 :=
  c10_balances_stay_nonneg blockGasLimit richState goodTx ⟨.OK, ""⟩
    (applyTxEffects richState goodTx 1) richState_balances_nonneg rfl 2

end Ethermint
